import Mathlib

/-!
Verification of the graceful-shutdown coordinator and service lifecycle
of the geeebe-service package (src/src/shutdown.ts, the Graceful class
variants, src/src/service.ts, src/src/koa-service.ts,
src/src/monitoring-service.ts).

The TypeScript is embedded shallowly:
* time is a discrete clock (Nat, milliseconds);
* a callback handed to the shutdown helper is `Cb`: it either throws
  synchronously when invoked, or settles (resolves or rejects) after a
  delay;
* the single-threaded event loop makes the shutdown sequence
  deterministic, so each shutdown path is embedded as a timeline
  function computing the (virtual) instant of every step;
* the `Graceful` class state is `GState` (the `running` field of the
  class together with the `shuttingDown` field of the status record the
  `graceful` function owns); each method or handler is a function on
  `GState`, recording which wrapped-service operation it delegates to.
-/

/-- Behaviour of an optional callback passed to `graceful` as `prepare` or
`finish`.  `settles d ok` means the call returns a promise that settles
after `d` ms, fulfilled when `ok` and rejected otherwise (a returned
non-promise value is `settles 0 true`).  `syncThrow` means the call
itself raises synchronously. -/
inductive Cb where
  | syncThrow : Cb
  | settles : Nat → Bool → Cb
deriving DecidableEq, Repr

/-- The `run` helper of shutdown.ts:
`run(fn, done)` invokes `done()` at once when `fn` is missing, otherwise
evaluates `fn()` and runs `done` via `Promise.all([fn()]).finally(done)`.
`runDoneAt fn t` is the instant `done` runs when `run` is entered at
instant `t`; `none` means `done` never runs (because `fn()` threw
synchronously, so the exception escaped before `Promise.all` was built). -/
def runDoneAt : Option Cb → Nat → Option Nat
  | none, t => some t
  | some (Cb.settles d _), t => some (t + d)
  | some Cb.syncThrow, _ => none

/-- `true` exactly when invoking the callback raises synchronously (the
one case in which `run` does not reach its continuation). -/
def throwsSync : Option Cb → Bool
  | some Cb.syncThrow => true
  | _ => false

/-- Observable timeline of one shutdown sequence (all instants in ms,
`none` when the step never happens). -/
structure Timeline where
  shuttingDownSetAt : Nat
  prepareStartedAt : Nat
  prepareDoneAt : Option Nat
  timerStartedAt : Option Nat
  finishStartedAt : Option Nat
  finishDoneAt : Option Nat
  exitAt : Option Nat
  exitCode : Option Nat
deriving DecidableEq, Repr

/-- Timeline of the signal handler of `graceful` (shutdown.ts) firing at
instant `t0`: it sets `shuttingDown := true`, then
`run(prepare, () => setTimeout(() => run(finish, () => process.exit(0)), grace))`. -/
def signalTimeline (grace : Nat) (prepare finish : Option Cb) (t0 : Nat) : Timeline :=
  let s1 := runDoneAt prepare t0
  let finStart := s1.map (fun t => t + grace)
  let s2 := finStart.bind (runDoneAt finish)
  { shuttingDownSetAt := t0
    prepareStartedAt := t0
    prepareDoneAt := s1
    timerStartedAt := s1
    finishStartedAt := finStart
    finishDoneAt := s2
    exitAt := s2
    exitCode := s2.map (fun _ => 0) }

/-- Timeline of the `uncaughtException` handler of `graceful` firing at
instant `t0`: it sets `shuttingDown := true`, then
`run(prepare, () => run(finish, () => process.exit(0)))` — no timer. -/
def faultTimeline (prepare finish : Option Cb) (t0 : Nat) : Timeline :=
  let s1 := runDoneAt prepare t0
  let s2 := s1.bind (runDoneAt finish)
  { shuttingDownSetAt := t0
    prepareStartedAt := t0
    prepareDoneAt := s1
    timerStartedAt := none
    finishStartedAt := s1
    finishDoneAt := s2
    exitAt := s2
    exitCode := s2.map (fun _ => 0) }

/-- Combined mutable state seen by the coordinator: the `running` field of
the `Graceful` class and the `shuttingDown` field of the status record
created by `graceful`. -/
structure GState where
  running : Bool
  shuttingDown : Bool
deriving DecidableEq, Repr

/-- Which wrapped-service operation a `Graceful` member delegates to. -/
inductive Delegate where
  | dstart | dstop | ddispose | dnone
deriving DecidableEq, Repr

namespace Graceful

/-- `isReady(): boolean { return this.running; }` -/
def isReady (st : GState) : Bool := st.running

/-- `start()` sets `this.running = true` and returns `this.service.start()`. -/
def start (st : GState) : GState × Delegate :=
  ({ st with running := true }, Delegate.dstart)

/-- `stop()` sets `this.running = false` and returns `this.service.stop()`
(`shutdown()` in the part_002 variant, same body). -/
def stop (st : GState) : GState × Delegate :=
  ({ st with running := false }, Delegate.dstop)

/-- `dispose()` returns `this.service.dispose()` (`destroy()` in the
part_002 variant): no field is written. -/
def dispose (st : GState) : GState × Delegate :=
  (st, Delegate.ddispose)

/-- The `prepare` closure the constructor passes to `graceful` is
`() => this.service.stop()`: it calls the wrapped service directly and
writes no coordinator field (in particular it does not go through
`Graceful.stop`, so `running` is untouched). -/
def prepareClosure (st : GState) : GState × Delegate :=
  (st, Delegate.dstop)

/-- The `finish` closure the constructor passes to `graceful` is
`() => this.service.dispose()`: no coordinator field is written. -/
def finishClosure (st : GState) : GState × Delegate :=
  (st, Delegate.ddispose)

end Graceful

/-- Synchronous body prefix of both handlers registered by `graceful`:
`status.shuttingDown = true` (the log call writes no state). -/
def handlerSync (st : GState) : GState :=
  { st with shuttingDown := true }

/-- The status record `graceful` creates: `{ shuttingDown: false }`; the
`running` field of a fresh `Graceful` instance is initialised `false`. -/
def gracefulInit : GState :=
  { running := false, shuttingDown := false }

/-- State of the coordinator at instant `t` during a signal-driven
shutdown whose handler fires at `t0` from state `init`: the handler runs
`handlerSync`, then the only code that runs is the `prepare` and `finish`
closures, neither of which writes a coordinator field. -/
def signalPathStateAt (init : GState) (t0 t : Nat) : GState :=
  if t < t0 then init
  else (Graceful.finishClosure (Graceful.prepareClosure (handlerSync init)).1).1

/-- Every piece of code that can touch the coordinator state: the two
handlers registered by `graceful`, the public members of `Graceful`, and
the two closures the constructor hands to `graceful`. -/
inductive Op where
  | sigHandler | faultHandler | gstart | gstop | gdispose | prepCb | finCb
deriving DecidableEq, Repr

/-- Effect of each operation on the coordinator state, read off the
bodies in shutdown.ts / part_001 / part_002. -/
def applyOp : Op → GState → GState
  | Op.sigHandler, st => handlerSync st
  | Op.faultHandler, st => handlerSync st
  | Op.gstart, st => (Graceful.start st).1
  | Op.gstop, st => (Graceful.stop st).1
  | Op.gdispose, st => (Graceful.dispose st).1
  | Op.prepCb, st => (Graceful.prepareClosure st).1
  | Op.finCb, st => (Graceful.finishClosure st).1

/-- Coordinator state during start-up: a fresh instance has
`running = false`; `Graceful.start` (invoked at instant `tInv`) sets
`running := true` synchronously and only then calls the wrapped
service's `start()`, whose completion resolves `d` ms later. -/
def startPathStateAt (tInv t : Nat) : GState :=
  if t < tInv then gracefulInit else (Graceful.start gracefulInit).1

/-- Instant at which the wrapped service's `start()` completion resolves
when `Graceful.start` runs at `tInv` and the wrapped start takes `d` ms. -/
def startSettleAt (tInv d : Nat) : Nat := tInv + d

/-- How a `start()` implementation reports an outcome to its caller:
either a synchronous raise, or a returned promise that fulfils or
rejects. -/
inductive StartReport where
  | syncThrow : String → StartReport
  | promise : Except String Unit → StartReport
deriving Repr

/-- `true` exactly when the report is a synchronous raise. -/
def StartReport.isSync : StartReport → Bool
  | StartReport.syncThrow _ => true
  | StartReport.promise _ => false

/-- The listening resource a Koa-based service holds once started: `close`
either succeeds or calls back with an error. -/
structure Srv where
  closeErr : Option String
deriving DecidableEq, Repr

namespace KoaService

/-- `KoaService.start` of service.ts (lines 195-196) and koa-service.ts
(lines 151-152): `if (this.server) throw new Error('Already started')`,
otherwise the routes are mounted and `startServer` resolves once the
server listens. -/
def start (server : Option Srv) : StartReport :=
  match server with
  | some _ => StartReport.syncThrow "Already started"
  | none => StartReport.promise (Except.ok ())

/-- `KoaService.start` of the variant stored alongside package.json
(lines 158-196): the body has no synchronous guard; `startServer` is
`new Promise((resolve, reject) => { if (this.server) return reject(new Error('Already started')); ... })`,
so a second call returns a rejected promise instead of raising. -/
def startV2 (server : Option Srv) : StartReport :=
  match server with
  | some _ => StartReport.promise (Except.error "Already started")
  | none => StartReport.promise (Except.ok ())

/-- `KoaService.stop` (identical in service.ts lines 213-225,
koa-service.ts lines 169-181 and the package.json variant):
resolve at once when `this.server` is unset; otherwise call
`this.server.close(cb)` — on error reject and leave `this.server` set,
on success clear `this.server` and resolve.  The result records
(promise outcome, whether `close` was called, new `server` field). -/
def stop (server : Option Srv) : (Except String Unit × Bool) × Option Srv :=
  match server with
  | none => ((Except.ok (), false), none)
  | some s =>
    match s.closeErr with
    | some e => ((Except.error e, true), some s)
    | none => ((Except.ok (), true), none)

end KoaService

namespace MonitorService

/-- `MonitorService.start` (monitoring-service.ts lines 36-55):
`if (this.server) throw new Error('Already started')`, then the monitor
router is mounted and the returned promise resolves once listening. -/
def start (server : Option Srv) : StartReport :=
  match server with
  | some _ => StartReport.syncThrow "Already started"
  | none => StartReport.promise (Except.ok ())

/-- `MonitorService.shutdown` (monitoring-service.ts lines 57-59):
`return Promise.resolve()` — no state is read or written. -/
def shutdown (server : Option Srv) : (Except String Unit × Bool) × Option Srv :=
  ((Except.ok (), false), server)

end MonitorService

/-- A child of the composite service, for one aggregate operation: its
completion settles after `latency` ms with `result`. -/
structure ChildOp where
  latency : Nat
  result : Except String Unit
deriving Repr

namespace Combine

/-- Modelled from the spec: `Service.combine(...services)` is only called
in src (the example in part_000); its definition is absent from src/.
Per the spec, each aggregate operation "concurrently invoke[s] the
corresponding operation on every child": the list of children that
receive the call is all of them, in registration order. -/
def invoked (cs : List ChildOp) : List ChildOp := cs

/-- Modelled from the spec: the aggregate's completion "resolves only
once all children's completions have resolved", so it settles at the
latest child settle time (the slowest child). -/
def settleLatency (cs : List ChildOp) : Nat :=
  (cs.map ChildOp.latency).foldr max 0

/-- Modelled from the spec: "settle-all, first-rejection-propagates-if-
any" — the aggregate result is the first child failure when one exists,
success otherwise, so a child failure is observable to the caller. -/
def result : List ChildOp → Except String Unit
  | [] => Except.ok ()
  | c :: cs =>
    match c.result with
    | Except.error e => Except.error e
    | Except.ok _ => result cs

end Combine

/-! ### Helper lemmas -/

/-- When a callback does not raise synchronously, the `run` helper always
invokes its continuation at some instant. -/
lemma runDoneAt_isSome_of_settling (fn : Option Cb) (t : Nat)
    (h : throwsSync fn = false) : ∃ s, runDoneAt fn t = some s := by
  cases fn with
  | none => exact ⟨t, rfl⟩
  | some c =>
    cases c with
    | syncThrow => simp [throwsSync] at h
    | settles d ok => exact ⟨t + d, rfl⟩

/-- Every child's latency is bounded by the aggregate settle latency. -/
lemma latency_le_settleLatency (cs : List ChildOp) :
    ∀ c ∈ cs, c.latency ≤ Combine.settleLatency cs := by
  induction cs with
  | nil => intro c hc; simp at hc
  | cons a as ih =>
    intro c hc
    have hfold : Combine.settleLatency (a :: as)
        = max a.latency (Combine.settleLatency as) := rfl
    rw [hfold]
    rcases List.mem_cons.mp hc with h | h
    · subst h; exact Nat.le_max_left _ _
    · exact le_trans (ih c h) (Nat.le_max_right _ _)

/-- The aggregate result is success exactly when every child succeeded. -/
lemma combine_result_ok_iff (cs : List ChildOp) :
    Combine.result cs = Except.ok () ↔ ∀ c ∈ cs, c.result = Except.ok () := by
  induction cs with
  | nil => simp [Combine.result]
  | cons a as ih =>
    cases hr : a.result with
    | error e =>
      constructor
      · intro h
        exfalso
        simp [Combine.result, hr] at h
      · intro h
        have ha := h a (List.mem_cons_self a as)
        rw [hr] at ha
        cases ha
    | ok u =>
      cases u
      have hstep : Combine.result (a :: as) = Combine.result as := by
        simp [Combine.result, hr]
      rw [hstep]
      constructor
      · intro h c hc
        rcases List.mem_cons.mp hc with h1 | h1
        · subst h1; exact hr
        · exact (ih.mp h) c h1
      · intro h
        exact ih.mpr (fun c hc => h c (List.mem_cons_of_mem a hc))

/-! ### Claims -/

/-- C1: the spec claims that upon receipt of a registered termination
signal the readiness probe returns `false` immediately, strictly before
`stop()`'s completion resolves.  The code disagrees: the signal handler
sets only `shuttingDown`, and the `prepare` closure it then runs is
`() => this.service.stop()`, which bypasses `Graceful.stop` — the sole
writer of `running := false`.  Starting from a running instance
(`running = true`) with the signal at instant 0, the probe reads `true`
at every instant of the shutdown, never `false`. -/
theorem C1_probe_stays_true_on_signal_path :
    ∀ t : Nat, Graceful.isReady (signalPathStateAt ⟨true, false⟩ 0 t) = true := by
  intro t
  simp [signalPathStateAt, Graceful.isReady, Graceful.prepareClosure,
    Graceful.finishClosure, handlerSync]

/-- C2: on the signal path, once `stop()`'s completion resolves at
instant `s`, the grace-period timer starts exactly at `s` (so only after
`stop()` resolves, never before) and `dispose()` is invoked exactly at
`s + grace`, hence no earlier than `grace` ms after `stop()` resolved. -/
theorem C2_dispose_no_earlier_than_grace (grace t0 s : Nat)
    (prepare finish : Option Cb)
    (h : (signalTimeline grace prepare finish t0).prepareDoneAt = some s) :
    (signalTimeline grace prepare finish t0).timerStartedAt = some s ∧
    (signalTimeline grace prepare finish t0).finishStartedAt = some (s + grace) := by
  simp only [signalTimeline] at h ⊢
  rw [h]
  simp

/-- C2 witness: grace 7, signal at 1, `stop()` resolves after 3 ms. -/
theorem C2_witness :
    (signalTimeline 7 (some (Cb.settles 3 true)) (some (Cb.settles 2 true)) 1).prepareDoneAt
        = some 4 ∧
    ((signalTimeline 7 (some (Cb.settles 3 true)) (some (Cb.settles 2 true)) 1).timerStartedAt
        = some 4 ∧
      (signalTimeline 7 (some (Cb.settles 3 true)) (some (Cb.settles 2 true)) 1).finishStartedAt
        = some (4 + 7)) :=
  ⟨rfl, C2_dispose_no_earlier_than_grace 7 1 4 (some (Cb.settles 3 true))
    (some (Cb.settles 2 true)) rfl⟩

/-- C3: the claim covers faults "raised or rejected" by the callbacks,
but a synchronously raised fault escapes the `run` helper before
`Promise.all` is built, so `done` never runs: with a synchronously
throwing `prepare`, `dispose` is never invoked and the process never
exits through this path. -/
theorem C3_counterexample_sync_raise_halts :
    (signalTimeline 0 (some Cb.syncThrow) (some (Cb.settles 0 true)) 0).finishStartedAt
      = none ∧
    (signalTimeline 0 (some Cb.syncThrow) (some (Cb.settles 0 true)) 0).exitAt = none :=
  ⟨rfl, rfl⟩

/-- C3 (amended): a missing callback is treated as instantly complete,
and a fault delivered as a rejected completion never halts the sequence:
whenever neither callback raises synchronously — in particular when
either rejects — `dispose` is still invoked and the process still
exits with code 0. -/
theorem C3_rejection_never_halts (grace t0 : Nat) (p f : Option Cb)
    (hp : throwsSync p = false) (hf : throwsSync f = false) :
    runDoneAt none t0 = some t0 ∧
    (∃ s, (signalTimeline grace p f t0).finishStartedAt = some s) ∧
    ∃ e, (signalTimeline grace p f t0).exitAt = some e ∧
      (signalTimeline grace p f t0).exitCode = some 0 := by
  obtain ⟨s1, hs1⟩ := runDoneAt_isSome_of_settling p t0 hp
  obtain ⟨s2, hs2⟩ := runDoneAt_isSome_of_settling f (s1 + grace) hf
  refine ⟨rfl, ⟨s1 + grace, ?_⟩, s2, ?_, ?_⟩ <;>
    simp [signalTimeline, hs1, hs2]

/-- C3 witness: both callbacks reject (settle with failure), yet
`dispose` is invoked and the process exits 0. -/
theorem C3_witness :
    throwsSync (some (Cb.settles 2 false)) = false ∧
    (runDoneAt none 0 = some 0 ∧
      (∃ s, (signalTimeline 5 (some (Cb.settles 2 false)) (some (Cb.settles 1 false)) 0).finishStartedAt
        = some s) ∧
      ∃ e, (signalTimeline 5 (some (Cb.settles 2 false)) (some (Cb.settles 1 false)) 0).exitAt
          = some e ∧
        (signalTimeline 5 (some (Cb.settles 2 false)) (some (Cb.settles 1 false)) 0).exitCode
          = some 0) :=
  ⟨rfl, C3_rejection_never_halts 5 0 (some (Cb.settles 2 false))
    (some (Cb.settles 1 false)) rfl rfl⟩

/-- C4: on the unhandled-fault path there is no grace-period timer;
`dispose` is invoked at the very instant `stop()`'s completion settles,
and after `dispose`'s completion settles (fulfilled or rejected) the
process exits with code 0. -/
theorem C4_fault_path_no_grace (t0 : Nat) (p f : Option Cb)
    (hp : throwsSync p = false) (hf : throwsSync f = false) :
    (faultTimeline p f t0).timerStartedAt = none ∧
    (faultTimeline p f t0).finishStartedAt = (faultTimeline p f t0).prepareDoneAt ∧
    (faultTimeline p f t0).exitAt = (faultTimeline p f t0).finishDoneAt ∧
    ∃ e, (faultTimeline p f t0).exitAt = some e ∧
      (faultTimeline p f t0).exitCode = some 0 := by
  obtain ⟨s1, hs1⟩ := runDoneAt_isSome_of_settling p t0 hp
  obtain ⟨s2, hs2⟩ := runDoneAt_isSome_of_settling f s1 hf
  refine ⟨rfl, rfl, rfl, s2, ?_, ?_⟩ <;>
    simp [faultTimeline, hs1, hs2]

/-- C4 witness: fault at instant 2, `stop()` resolves after 4 ms,
`dispose()` rejects after 3 ms; the process still exits 0, with no
grace wait. -/
theorem C4_witness :
    throwsSync (some (Cb.settles 4 true)) = false ∧
    ((faultTimeline (some (Cb.settles 4 true)) (some (Cb.settles 3 false)) 2).timerStartedAt
        = none ∧
      (faultTimeline (some (Cb.settles 4 true)) (some (Cb.settles 3 false)) 2).finishStartedAt
        = (faultTimeline (some (Cb.settles 4 true)) (some (Cb.settles 3 false)) 2).prepareDoneAt ∧
      (faultTimeline (some (Cb.settles 4 true)) (some (Cb.settles 3 false)) 2).exitAt
        = (faultTimeline (some (Cb.settles 4 true)) (some (Cb.settles 3 false)) 2).finishDoneAt ∧
      ∃ e, (faultTimeline (some (Cb.settles 4 true)) (some (Cb.settles 3 false)) 2).exitAt
          = some e ∧
        (faultTimeline (some (Cb.settles 4 true)) (some (Cb.settles 3 false)) 2).exitCode
          = some 0) :=
  ⟨rfl, C4_fault_path_no_grace 2 (some (Cb.settles 4 true))
    (some (Cb.settles 3 false)) rfl rfl⟩

/-- C5: the spec claims the probe returns `true` only after `start()`'s
completion has resolved; but `Graceful.start` sets `running := true`
synchronously before calling the wrapped `start()`: with `start` invoked
at instant 0 and the wrapped start resolving at instant 5, the probe
already reads `true` at instant 2. -/
theorem C5_counterexample_probe_true_before_resolve :
    2 < startSettleAt 0 5 ∧ Graceful.isReady (startPathStateAt 0 2) = true := by
  exact ⟨by decide, rfl⟩

/-- C5 (amended): the probe reflects whether `Graceful.start()` has been
invoked, not whether its completion has resolved: it reads `true` from
the instant `start()` is called (the flag is written synchronously,
before the wrapped service's `start()` completes) and `false` before. -/
theorem C5_probe_tracks_start_invocation :
    ∀ tInv t : Nat, Graceful.isReady (startPathStateAt tInv t) = true ↔ tInv ≤ t := by
  intro tInv t
  unfold startPathStateAt
  by_cases h : t < tInv
  · simp [h, gracefulInit, Graceful.isReady]
  · simp [h, Graceful.isReady, Graceful.start]
    omega

/-- C6: every aggregate operation of `combine` reaches every child (a
failing child never deprives the others of the call), the aggregate
settles no earlier than its slowest child, and its result is success
exactly when all children succeeded — so any child failure is observable
to the caller. -/
theorem C6_combine_fanout (cs : List ChildOp) :
    Combine.invoked cs = cs ∧
    (∀ c ∈ cs, c.latency ≤ Combine.settleLatency cs) ∧
    (Combine.result cs = Except.ok () ↔ ∀ c ∈ cs, c.result = Except.ok ()) :=
  ⟨rfl, latency_le_settleLatency cs, combine_result_ok_iff cs⟩

/-- C6 witness: two children, the second failing — both receive the
call, the aggregate waits for the slowest, and the failure surfaces. -/
theorem C6_witness :
    Combine.invoked [(⟨2, Except.ok ()⟩ : ChildOp), ⟨5, Except.error "boom"⟩]
        = [(⟨2, Except.ok ()⟩ : ChildOp), ⟨5, Except.error "boom"⟩] ∧
    (∀ c ∈ [(⟨2, Except.ok ()⟩ : ChildOp), ⟨5, Except.error "boom"⟩],
      c.latency ≤ Combine.settleLatency
        [(⟨2, Except.ok ()⟩ : ChildOp), ⟨5, Except.error "boom"⟩]) ∧
    (Combine.result [(⟨2, Except.ok ()⟩ : ChildOp), ⟨5, Except.error "boom"⟩]
        = Except.ok () ↔
      ∀ c ∈ [(⟨2, Except.ok ()⟩ : ChildOp), ⟨5, Except.error "boom"⟩],
        c.result = Except.ok ()) :=
  C6_combine_fanout [⟨2, Except.ok ()⟩, ⟨5, Except.error "boom"⟩]

/-- C7: the claim says every implementer reports `AlreadyStarted`
synchronously; but the `KoaService.start` variant stored alongside
package.json has no synchronous guard — with the server already
listening, a second `start()` returns a rejected promise instead of
raising. -/
theorem C7_counterexample_v2_rejects :
    StartReport.isSync (KoaService.startV2 (some ⟨none⟩)) = false ∧
    KoaService.startV2 (some ⟨none⟩)
      = StartReport.promise (Except.error "Already started") :=
  ⟨rfl, rfl⟩

/-- C7 (amended): `KoaService.start` of service.ts / koa-service.ts and
`MonitorService.start` raise `AlreadyStarted` synchronously on a second
call; the package.json variant reports it through rejection of the
returned completion instead. -/
theorem C7_second_start_reports_already_started (s : Srv) :
    KoaService.start (some s) = StartReport.syncThrow "Already started" ∧
    MonitorService.start (some s) = StartReport.syncThrow "Already started" ∧
    KoaService.startV2 (some s)
      = StartReport.promise (Except.error "Already started") :=
  ⟨rfl, rfl, rfl⟩

/-- C8: `stop()` on a never-started service resolves as a no-op (no
`close` call, state unchanged); after a successful `stop()` a second
call also resolves, calls `close` on nothing and changes nothing;
`MonitorService.shutdown` is always a no-op success; and
`Graceful.stop` is idempotent on the coordinator state. -/
theorem C8_stop_noop_and_idempotent (st s2 : Option Srv) (g : GState)
    (hsucc : (KoaService.stop st).1.1 = Except.ok ()) :
    KoaService.stop none = ((Except.ok (), false), none) ∧
    KoaService.stop (KoaService.stop st).2
      = ((Except.ok (), false), (KoaService.stop st).2) ∧
    MonitorService.shutdown s2 = ((Except.ok (), false), s2) ∧
    Graceful.stop (Graceful.stop g).1 = Graceful.stop g := by
  refine ⟨rfl, ?_, rfl, rfl⟩
  cases st with
  | none => rfl
  | some s =>
    cases hc : s.closeErr with
    | some e => simp [KoaService.stop, hc] at hsucc
    | none => simp [KoaService.stop, hc]

/-- C8 witness: a started service whose `close` succeeds — the first
`stop()` succeeds and the second is a trivial success with no further
`close`. -/
theorem C8_witness :
    (KoaService.stop (some ⟨none⟩)).1.1 = Except.ok () ∧
    (KoaService.stop none = ((Except.ok (), false), none) ∧
      KoaService.stop (KoaService.stop (some ⟨none⟩)).2
        = ((Except.ok (), false), (KoaService.stop (some ⟨none⟩)).2) ∧
      MonitorService.shutdown (some ⟨some "x"⟩)
        = ((Except.ok (), false), some ⟨some "x"⟩) ∧
      Graceful.stop (Graceful.stop ⟨true, false⟩).1
        = Graceful.stop ⟨true, false⟩) :=
  ⟨rfl, C8_stop_noop_and_idempotent (some ⟨none⟩) (some ⟨some "x"⟩) ⟨true, false⟩ rfl⟩

/-- C9: the status record starts with `shuttingDown = false`; every
operation preserves `shuttingDown = true` (never reset); an operation
that makes it `true` is the signal or the fault handler or it already
was `true` (no other writer); and both handlers do set it to `true` —
`true` is the only value ever written. -/
theorem C9_shuttingDown_monotone (op : Op) (st : GState) :
    gracefulInit.shuttingDown = false ∧
    (st.shuttingDown = true → (applyOp op st).shuttingDown = true) ∧
    ((applyOp op st).shuttingDown = true →
      st.shuttingDown = true ∨ op = Op.sigHandler ∨ op = Op.faultHandler) ∧
    (applyOp Op.sigHandler st).shuttingDown = true ∧
    (applyOp Op.faultHandler st).shuttingDown = true := by
  cases op <;>
    simp [applyOp, handlerSync, gracefulInit, Graceful.start, Graceful.stop,
      Graceful.dispose, Graceful.prepareClosure, Graceful.finishClosure]

/-- C9 witness: `Graceful.start` on a draining coordinator leaves
`shuttingDown` set. -/
theorem C9_witness :
    (applyOp Op.gstart ⟨false, true⟩).shuttingDown = true :=
  (C9_shuttingDown_monotone Op.gstart ⟨false, true⟩).2.1 rfl

/-- C10: `Graceful.dispose` only delegates to the wrapped service — the
coordinator state, hence the probe value, is unchanged — while
`Graceful.stop` clears `running`, and the only operation that can take
`running` from `true` to `false` is `Graceful.stop`. -/
theorem C10_dispose_preserves_running (st : GState) (op : Op)
    (hrun : st.running = true) (hdrop : (applyOp op st).running = false) :
    Graceful.dispose st = (st, Delegate.ddispose) ∧
    Graceful.isReady (Graceful.dispose st).1 = Graceful.isReady st ∧
    (Graceful.stop st).1.running = false ∧
    op = Op.gstop := by
  refine ⟨rfl, rfl, rfl, ?_⟩
  cases op <;>
    simp [applyOp, handlerSync, Graceful.start, Graceful.stop,
      Graceful.dispose, Graceful.prepareClosure, Graceful.finishClosure,
      hrun] at hdrop ⊢

/-- C10 witness: from a running coordinator, `stop` is the operation
that clears `running`; `dispose` leaves the state intact. -/
theorem C10_witness :
    Graceful.dispose ⟨true, false⟩ = (⟨true, false⟩, Delegate.ddispose) ∧
    Graceful.isReady (Graceful.dispose ⟨true, false⟩).1
      = Graceful.isReady ⟨true, false⟩ ∧
    (Graceful.stop ⟨true, false⟩).1.running = false ∧
    Op.gstop = Op.gstop :=
  C10_dispose_preserves_running ⟨true, false⟩ Op.gstop rfl rfl
